import Mathlib

/-!
Verification development for the ShadowLog backend's AI-result caching and
enrichment flow.  The definitions below are shallow embeddings of the
TypeScript source:

  * `generateCacheKey`   — src/backend/src/utils/helpers.ts (SHA-256 of `type:content`)
  * `getCachedResult`, `cacheResult` — src/backend/src/services/ai.ts (two-tier cache)
  * `cleanupExpiredCache` — services/database.ts (durable-tier sweep)
  * `analyzeSentiment`, `generateTags`, `generateSummary` — services/ai.ts
  * `processAIAnalysis`  — src/backend/src/routes/entries.ts (enrichment orchestrator)

Machine integers are modelled as `Nat` reduced modulo 2^32 where the source's
32-bit arithmetic matters (the SHA-256 compression).  JSON values are the
inductive `Json`; `JSON.stringify`/`JSON.parse` round-tripping between the
service and the stores is the identity on such values, so the stores hold
`Json` directly.  Fallible external operations (Redis, Prisma, the OpenAI
provider) are driven by explicit failure flags / outcome values so that every
`try`/`catch` in the source is mirrored by an explicit branch.
-/

/-- JSON values, the type of analysis results stored by the cache and
persisted on entries. -/
inductive Json where
  | null
  | bool (b : Bool)
  | num (n : Int)
  | str (s : String)
  | arr (xs : List Json)
  | obj (fields : List (String × Json))
deriving Repr

/-- JavaScript truthiness of a JSON value (`if (cached)` in `generateSummary`). -/
def jsTruthy : Json → Bool
  | .null => false
  | .bool b => b
  | .num n => n != 0
  | .str s => s != ""
  | .arr _ => true
  | .obj _ => true

/-- JavaScript `x || d` on an optional string (`||` also replaces `""`). -/
def jsOr (x : Option String) (d : String) : String :=
  match x with
  | some s => if s = "" then d else s
  | none => d

/-! ### SHA-256 over byte lists (32-bit words as `Nat % 2^32`) -/

/-- Truncate to a 32-bit word. -/
def wmask (x : Nat) : Nat := x % 4294967296

/-- 32-bit right rotation. -/
def rot32 (n x : Nat) : Nat := wmask ((x >>> n) ||| (x <<< (32 - n)))

def shaCh (x y z : Nat) : Nat := (x &&& y) ^^^ ((x ^^^ 4294967295) &&& z)

def shaMaj (x y z : Nat) : Nat := (x &&& y) ^^^ (x &&& z) ^^^ (y &&& z)

def bigSigma0 (x : Nat) : Nat := rot32 2 x ^^^ rot32 13 x ^^^ rot32 22 x

def bigSigma1 (x : Nat) : Nat := rot32 6 x ^^^ rot32 11 x ^^^ rot32 25 x

def smallSigma0 (x : Nat) : Nat := rot32 7 x ^^^ rot32 18 x ^^^ (x >>> 3)

def smallSigma1 (x : Nat) : Nat := rot32 17 x ^^^ rot32 19 x ^^^ (x >>> 10)

/-- The SHA-256 round constants. -/
def shaK : List Nat :=
  [1116352408, 1899447441, 3049323471, 3921009573, 961987163,
   1508970993, 2453635748, 2870763221, 3624381080, 310598401,
   607225278, 1426881987, 1925078388, 2162078206, 2614888103,
   3248222580, 3835390401, 4022224774, 264347078, 604807628,
   770255983, 1249150122, 1555081692, 1996064986, 2554220882,
   2821834349, 2952996808, 3210313671, 3336571891, 3584528711,
   113926993, 338241895, 666307205, 773529912, 1294757372,
   1396182291, 1695183700, 1986661051, 2177026350, 2456956037,
   2730485921, 2820302411, 3259730800, 3345764771, 3516065817,
   3600352804, 4094571909, 275423344, 430227734, 506948616,
   659060556, 883997877, 958139571, 1322822218, 1537002063,
   1747873779, 1955562222, 2024104815, 2227730452, 2361852424,
   2428436474, 2756734187, 3204031479, 3329325298]

/-- SHA-256 working state / digest: eight 32-bit words. -/
structure Digest where
  a : Nat
  b : Nat
  c : Nat
  d : Nat
  e : Nat
  f : Nat
  g : Nat
  h : Nat
deriving Repr

/-- The SHA-256 initial hash value. -/
def shaH0 : Digest :=
  ⟨1779033703, 3144134277, 1013904242, 2773480762,
   1359893119, 2600822924, 528734635, 1541459225⟩

/-- Big-endian 8-byte encoding of the bit length. -/
def lenBytes (n : Nat) : List Nat :=
  [(n >>> 56) &&& 255, (n >>> 48) &&& 255, (n >>> 40) &&& 255, (n >>> 32) &&& 255,
   (n >>> 24) &&& 255, (n >>> 16) &&& 255, (n >>> 8) &&& 255, n &&& 255]

/-- SHA-256 padding: append 0x80, zero bytes to 56 mod 64, then the 64-bit
big-endian bit length. -/
def padMessage (bs : List Nat) : List Nat :=
  bs ++ [0x80] ++ List.replicate ((119 - bs.length % 64) % 64) 0 ++ lenBytes (8 * bs.length)

/-- Group bytes into big-endian 32-bit words. -/
def bytesToWords : List Nat → List Nat
  | a :: b :: c :: d :: rest => ((a <<< 24) ||| (b <<< 16) ||| (c <<< 8) ||| d) :: bytesToWords rest
  | _ => []

/-- Extend the 16-word message schedule by `n` further words. -/
def extendW : Nat → Array Nat → Array Nat
  | 0, w => w
  | n + 1, w =>
      let s := w.size
      let nw := wmask (smallSigma1 (w.getD (s - 2) 0) + w.getD (s - 7) 0 +
        smallSigma0 (w.getD (s - 15) 0) + w.getD (s - 16) 0)
      extendW n (w.push nw)

/-- The 64-word message schedule of one block. -/
def schedule (block : List Nat) : Array Nat := extendW 48 (bytesToWords block).toArray

/-- One SHA-256 compression round. -/
def shaRound (ki wi : Nat) (st : Digest) : Digest :=
  let t1 := wmask (st.h + bigSigma1 st.e + shaCh st.e st.f st.g + ki + wi)
  let t2 := wmask (bigSigma0 st.a + shaMaj st.a st.b st.c)
  ⟨wmask (t1 + t2), st.a, st.b, st.c, wmask (st.d + t1), st.e, st.f, st.g⟩

/-- Compress one 64-byte block into the running hash. -/
def compressBlock (st : Digest) (block : List Nat) : Digest :=
  let w := schedule block
  let fin := (List.range 64).foldl (fun acc i => shaRound (shaK.getD i 0) (w.getD i 0) acc) st
  ⟨wmask (st.a + fin.a), wmask (st.b + fin.b), wmask (st.c + fin.c), wmask (st.d + fin.d),
   wmask (st.e + fin.e), wmask (st.f + fin.f), wmask (st.g + fin.g), wmask (st.h + fin.h)⟩

/-- Split a byte list into 64-byte blocks (fuel-driven structural recursion;
`fuel = bs.length` always suffices since each step consumes 64 bytes). -/
def toBlocksGo : Nat → List Nat → List (List Nat)
  | _, [] => []
  | 0, _ => []
  | fuel + 1, bs => bs.take 64 :: toBlocksGo fuel (bs.drop 64)

/-- Split a byte list into 64-byte blocks. -/
def toBlocks (bs : List Nat) : List (List Nat) := toBlocksGo bs.length bs

/-- SHA-256 of a byte list. -/
def sha256 (bs : List Nat) : Digest := (toBlocks (padMessage bs)).foldl compressBlock shaH0

/-- Lower-case hexadecimal digit. -/
def hexDigit : Nat → Char
  | 0 => '0' | 1 => '1' | 2 => '2' | 3 => '3' | 4 => '4' | 5 => '5' | 6 => '6' | 7 => '7'
  | 8 => '8' | 9 => '9' | 10 => 'a' | 11 => 'b' | 12 => 'c' | 13 => 'd' | 14 => 'e' | _ => 'f'

/-- Eight hex characters of one 32-bit word (most significant nibble first). -/
def hex8 (w : Nat) : List Char :=
  [hexDigit ((w >>> 28) &&& 15), hexDigit ((w >>> 24) &&& 15), hexDigit ((w >>> 20) &&& 15),
   hexDigit ((w >>> 16) &&& 15), hexDigit ((w >>> 12) &&& 15), hexDigit ((w >>> 8) &&& 15),
   hexDigit ((w >>> 4) &&& 15), hexDigit (w &&& 15)]

/-- `.digest('hex')`: the 64-character hex rendering of a digest. -/
def digestHex (d : Digest) : String :=
  String.mk (hex8 d.a ++ hex8 d.b ++ hex8 d.c ++ hex8 d.d ++
    hex8 d.e ++ hex8 d.f ++ hex8 d.g ++ hex8 d.h)

/-- UTF-8 encoding of one code point (what `hash.update(string)` feeds the hash). -/
def utf8Char (c : Char) : List Nat :=
  let n := c.toNat
  if n < 0x80 then [n]
  else if n < 0x800 then [0xC0 ||| (n >>> 6), 0x80 ||| (n &&& 0x3F)]
  else if n < 0x10000 then
    [0xE0 ||| (n >>> 12), 0x80 ||| ((n >>> 6) &&& 0x3F), 0x80 ||| (n &&& 0x3F)]
  else
    [0xF0 ||| (n >>> 18), 0x80 ||| ((n >>> 12) &&& 0x3F),
     0x80 ||| ((n >>> 6) &&& 0x3F), 0x80 ||| (n &&& 0x3F)]

/-- UTF-8 bytes of a string. -/
def utf8Str (s : String) : List Nat := s.data.foldr (fun c acc => utf8Char c ++ acc) []

/-- src/backend/src/utils/helpers.ts, `generateCacheKey`:
`crypto.createHash('sha256').update(type + ":" + content).digest('hex')`. -/
def generateCacheKey (content : String) (type : String) : String :=
  digestHex (sha256 (utf8Str (type ++ ":" ++ content)))

/-! ### The two-tier cache (src/backend/src/services/ai.ts)

The volatile tier is the `ioredis` client: `this.redis : Redis | null`
(`none` models the "Redis not available, caching disabled" state in which the
constructor left `this.redis` null and every tier access is skipped).  When
present, the tier holds `setex`-written entries together with their absolute
expiry instant, and carries failure flags that make the next `get`/`setex`
command reject — mirroring a broken connection.  The durable tier is the
Prisma `aICache` table: rows keyed by the unique `key` column, plus failure
flags for its `findFirst` / `upsert` / `deleteMany` operations and a flag for
the table not existing yet.  All instants are milliseconds (`Date.now()`). -/

/-- One durable-tier row of the `aICache` table. -/
structure CacheRow where
  key : String
  type : String
  result : Json
  expiresAt : Nat

/-- The volatile (Redis) tier, when the client was constructed. -/
structure RedisState where
  /-- live `setex` entries: key ↦ (stored value, absolute expiry in ms). -/
  entries : List (String × Json × Nat)
  /-- the next `redis.get` command rejects. -/
  getFails : Bool
  /-- the next `redis.setex` command rejects. -/
  setFails : Bool

/-- The durable (Prisma) tier plus failure switches for its operations. -/
structure DbState where
  rows : List CacheRow
  /-- the `ai_cache` table has not been created yet (first-run bootstrap). -/
  tableMissing : Bool
  /-- the next `findFirst` rejects. -/
  readFails : Bool
  /-- the next `upsert` rejects. -/
  writeFails : Bool
  /-- the next `deleteMany` rejects. -/
  deleteFails : Bool

/-- Redis `GET`: the value stored under `key`, if its TTL has not elapsed. -/
def redisLookup (entries : List (String × Json × Nat)) (key : String) (now : Nat) : Option Json :=
  match entries with
  | [] => none
  | (k, v, exp) :: rest =>
    if k = key then (if now < exp then some v else none) else redisLookup rest key now

/-- Redis `SETEX key ttl value` (ttl in seconds): replace or add the entry,
live until `now + ttl * 1000`. -/
def redisSet (entries : List (String × Json × Nat)) (key : String) (v : Json) (exp : Nat) :
    List (String × Json × Nat) :=
  match entries with
  | [] => [(key, v, exp)]
  | (k, w, e) :: rest =>
    if k = key then (key, v, exp) :: rest else (k, w, e) :: redisSet rest key v exp

/-- Outcome of the volatile-tier read attempt in `getCachedResult`. -/
inductive RedisRead where
  /-- the `get` command rejected. -/
  | err
  /-- the `get` command resolved with this value (`none` = key absent/expired). -/
  | val (v : Option Json)

/-- The `if (this.redis) { await this.redis.get(key) }` step: `none` when the
tier is absent (no command issued at all). -/
def redisGet (redis : Option RedisState) (key : String) (now : Nat) : Option RedisRead :=
  match redis with
  | none => none
  | some r => some (if r.getFails then .err else .val (redisLookup r.entries key now))

/-- Prisma `aICache.findFirst({ where: { key, type, expiresAt: { gt: now } } })`. -/
def dbFind (rows : List CacheRow) (now : Nat) (key type : String) : Option CacheRow :=
  match rows with
  | [] => none
  | row :: rest =>
    if row.key = key ∧ row.type = type ∧ now < row.expiresAt then some row
    else dbFind rest now key type

/-- Prisma `aICache.upsert({ where: { key }, update: {...}, create: {...} })`:
`key` is the table's unique column; the row with that key is overwritten, or a
new row is created. -/
def upsertRows (rows : List CacheRow) (key type : String) (result : Json) (expiresAt : Nat) :
    List CacheRow :=
  match rows with
  | [] => [⟨key, type, result, expiresAt⟩]
  | row :: rest =>
    if row.key = key then ⟨key, type, result, expiresAt⟩ :: rest
    else row :: upsertRows rest key type result expiresAt

/-- `AIService.getCachedResult(key, type)` (services/ai.ts).  The whole body is
one `try` whose `catch` returns `null`, so any rejecting tier command ends the
lookup with `none`.  Returns the looked-up value together with the volatile
tier as left behind (the durable-hit branch repopulates it with a fixed 3600 s
TTL via `redis.setex(key, 3600, ...)`). -/
def getCachedResult (redis : Option RedisState) (db : DbState) (now : Nat) (key type : String) :
    Option Json × Option RedisState :=
  match redisGet redis key now with
  | some .err => (none, redis)              -- `redis.get` rejected → catch → `return null`
  | some (.val (some v)) => (some v, redis) -- volatile hit: `return JSON.parse(redisResult)`
  | _ =>                                    -- tier absent, or volatile miss
    if db.readFails then (none, redis)      -- `findFirst` rejected → catch → `return null`
    else
      match dbFind db.rows now key type with
      | none => (none, redis)               -- durable miss / row expired: `return null`
      | some row =>
        match redis with
        | none => (some row.result, none)   -- no volatile tier: `return dbResult.result`
        | some r =>
          if r.setFails then (none, some r) -- repopulating `setex` rejected → catch → `return null`
          else (some row.result,
            some { r with entries := redisSet r.entries key row.result (now + 3600 * 1000) })

/-- `AIService.cacheResult(key, type, result)` (services/ai.ts).  `ttl` is the
`AI_CACHE_TTL` value in seconds; `expiresAt = Date.now() + ttl * 1000`.  Both
writes sit in one `try` whose `catch` only logs, so the function never raises;
a rejecting volatile `setex` also skips the durable `upsert`. -/
def cacheResult (redis : Option RedisState) (db : DbState) (now ttl : Nat) (key type : String)
    (result : Json) : Option RedisState × DbState :=
  let expiresAt := now + ttl * 1000
  match redis with
  | some r =>
    if r.setFails then (some r, db)         -- `setex` rejected → catch → upsert skipped
    else
      let r2 := { r with entries := redisSet r.entries key result (now + ttl * 1000) }
      if db.writeFails then (some r2, db)   -- `upsert` rejected → catch (logged only)
      else (some r2, { db with rows := upsertRows db.rows key type result expiresAt })
  | none =>
    if db.writeFails then (none, db)
    else (none, { db with rows := upsertRows db.rows key type result expiresAt })

/-! ### The sweep (`DatabaseService.cleanupExpiredCache`, services/database.ts) -/

/-- The `try` body of `cleanupExpiredCache`: probe the table
(`SELECT 1 FROM ai_cache LIMIT 1` raises "... does not exist" when the table
is absent), then `aICache.deleteMany({ where: { expiresAt: { lt: now } } })`. -/
def cleanupBody (db : DbState) (now : Nat) : Except String DbState :=
  if db.tableMissing then .error "relation ai_cache does not exist"
  else if db.deleteFails then .error "deleteMany failed"
  else .ok { db with rows := db.rows.filter (fun row => !decide (row.expiresAt < now)) }

/-- `DatabaseService.cleanupExpiredCache()`: the body's errors are all caught
(missing table is logged as a skip, anything else as a failure); the function
itself never raises and leaves the store unchanged on any error. -/
def cleanupExpiredCache (db : DbState) (now : Nat) : DbState :=
  match cleanupBody db now with
  | .ok db2 => db2
  | .error _ => db

/-! ### The analysis calls (`AIService`, services/ai.ts)

`openai : Option Unit` models `this.openai : OpenAI | null` (`none` = no
`OPENAI_API_KEY`).  A single provider round-trip is a `ProviderCall`: either
the request rejects, or it resolves and `response.choices[0]?.message?.content`
is the carried optional string.  `JSON.parse` is taken as an uninterpreted
parameter `parse` (`none` = the text is malformed and `JSON.parse` throws);
the theorems quantify over it, so they hold for the real parser. -/

/-- One round-trip of `this.openai.chat.completions.create(...)`. -/
inductive ProviderCall where
  /-- the request rejected (network error, rate limit, ...). -/
  | fail
  /-- the request resolved; `content = response.choices[0]?.message?.content`. -/
  | respond (content : Option String)

/-- The neutral sentiment returned when the provider is not configured:
`{ score: 0, label: 'neutral', confidence: 0, emotions: [] }`. -/
def sentimentDefault : Json :=
  .obj [("score", .num 0), ("label", .str "neutral"), ("confidence", .num 0),
        ("emotions", .arr [])]

/-- `AIService.analyzeSentiment(content)`.  With no provider configured it
returns the neutral default before the `try`.  Otherwise the `try` body runs:
after a resolved call and a successful `JSON.parse`, the next statement is
`await this.cacheResult(cacheKey, 'sentiment', result)` — but no `cacheKey`
variable is declared anywhere in this function, so evaluating it throws a
`ReferenceError`, which the `catch` converts to
`AppError('Failed to analyze sentiment', 500)`.  Errors are `(message, status)`. -/
def analyzeSentiment (openai : Option Unit) (env : ProviderCall)
    (parse : String → Option Json) (content : String) : Except (String × Nat) Json :=
  match openai with
  | none => .ok sentimentDefault
  | some _ =>
    match env with
    | .fail => .error ("Failed to analyze sentiment", 500)
    | .respond c =>
      match parse (jsOr c "{}") with
      | none => .error ("Failed to analyze sentiment", 500)   -- JSON.parse threw → catch
      | some _result =>
        -- `await this.cacheResult(cacheKey, 'sentiment', result)`:
        -- `cacheKey` is not in scope → ReferenceError → catch
        .error ("Failed to analyze sentiment", 500)

/-- `AIService.generateTags(content)`.  Identical shape to `analyzeSentiment`:
empty-list default without a provider; with one, the undeclared `cacheKey` in
`await this.cacheResult(cacheKey, 'tags', result)` makes every surviving path
throw, caught as `AppError('Failed to generate tags', 500)`. -/
def generateTags (openai : Option Unit) (env : ProviderCall)
    (parse : String → Option Json) (content : String) : Except (String × Nat) Json :=
  match openai with
  | none => .ok (.arr [])
  | some _ =>
    match env with
    | .fail => .error ("Failed to generate tags", 500)
    | .respond c =>
      match parse (jsOr c "[]") with
      | none => .error ("Failed to generate tags", 500)
      | some _result =>
        -- `await this.cacheResult(cacheKey, 'tags', result)`:
        -- `cacheKey` is not in scope → ReferenceError → catch
        .error ("Failed to generate tags", 500)

/-- The `try` block of `generateSummary`, run when the cache lookup came back
falsy.  With `this.openai === null` (no guard exists in this function),
`this.openai.chat.completions.create` throws a TypeError, caught as
`AppError('Failed to generate summary', 500)`.  On a resolved call the result
is `content || ''`, cached via `cacheResult` (which never raises) and
returned. -/
def summaryFresh (openai : Option Unit) (env : ProviderCall) (redis2 : Option RedisState)
    (db : DbState) (now ttl : Nat) (cacheKey : String) :
    Except (String × Nat) Json × Option RedisState × DbState :=
  match openai with
  | none =>
    -- `this.openai.chat.completions.create` with `this.openai === null`:
    -- TypeError → catch → AppError
    (.error ("Failed to generate summary", 500), redis2, db)
  | some _ =>
    match env with
    | .fail => (.error ("Failed to generate summary", 500), redis2, db)
    | .respond c =>
      let result := jsOr c ""                       -- `content || ''`
      match cacheResult redis2 db now ttl cacheKey "summary" (.str result) with
      | (redis3, db2) => (.ok (.str result), redis3, db2)

/-- `AIService.generateSummary(content)`.  The only analysis call that uses the
cache: it derives `cacheKey`, consults `getCachedResult`, and on a truthy
cached value returns it (`if (cached) return cached as string`).  It has no
`!this.openai` guard: on a miss with no provider configured, the `try` block
(`summaryFresh`) throws and the `catch` yields
`AppError('Failed to generate summary', 500)`. -/
def generateSummary (openai : Option Unit) (env : ProviderCall) (redis : Option RedisState)
    (db : DbState) (now ttl : Nat) (content : String) :
    Except (String × Nat) Json × Option RedisState × DbState :=
  let cacheKey := generateCacheKey content "summary"
  match getCachedResult redis db now cacheKey "summary" with
  | (cached, redis2) =>
    match cached with
    | some v =>
      if jsTruthy v then (.ok v, redis2, db)           -- `if (cached) return cached as string`
      else summaryFresh openai env redis2 db now ttl cacheKey
    | none => summaryFresh openai env redis2 db now ttl cacheKey

/-! ### The enrichment orchestrator (`processAIAnalysis`, routes/entries.ts) -/

/-- The AI-derived fields of a `diaryEntry` row. -/
structure EntryAI where
  aiSentiment : Option Json
  aiTags : Option Json
  aiSummary : Option Json

/-- `processAIAnalysis(entryId, content)` (routes/entries.ts).  The three
analysis calls run under `Promise.all`; if all three resolve, one
`diaryEntry.update` writes all three fields, and if any rejects the `catch`
only logs — no field is written at all.  (`Promise.all` does not cancel the
siblings, so `generateSummary`'s cache writes survive either way; sentiment
and tags never touch the cache, see `analyzeSentiment`/`generateTags`.)
Returns the entry's AI fields after the pass plus the cache tiers. -/
def processAIAnalysis (openai : Option Unit) (sEnv tEnv uEnv : ProviderCall)
    (parse : String → Option Json) (redis : Option RedisState) (db : DbState)
    (now ttl : Nat) (entry : EntryAI) (content : String) :
    EntryAI × Option RedisState × DbState :=
  let s := analyzeSentiment openai sEnv parse content
  let t := generateTags openai tEnv parse content
  match generateSummary openai uEnv redis db now ttl content with
  | (u, redis2, db2) =>
    match s, t, u with
    | .ok sv, .ok tv, .ok uv =>
      ({ aiSentiment := some sv, aiTags := some tv, aiSummary := some uv }, redis2, db2)
    | _, _, _ => (entry, redis2, db2)       -- Promise.all rejected → catch → log only

/-! ### Helper lemmas and concrete fixtures -/

/-- A lookup never returns a row all of whose candidates are expired. -/
theorem dbFind_none_of_expired (rows : List CacheRow) (now : Nat) (k t : String)
    (h : ∀ row ∈ rows, row.key = k → row.type = t → row.expiresAt ≤ now) :
    dbFind rows now k t = none := by
  induction rows with
  | nil => rfl
  | cons row rest ih =>
    unfold dbFind
    by_cases hc : row.key = k ∧ row.type = t ∧ now < row.expiresAt
    · have := h row (List.mem_cons_self row rest) hc.1 hc.2.1
      omega
    · rw [if_neg hc]
      exact ih (fun r hr => h r (List.mem_cons_of_mem _ hr))

/-- After an upsert, the filtered read finds the freshly written row (provided
it has not expired). -/
theorem dbFind_upsertRows (rows : List CacheRow) (now : Nat) (k t : String) (v : Json) (e : Nat)
    (h : now < e) :
    dbFind (upsertRows rows k t v e) now k t = some ⟨k, t, v, e⟩ := by
  induction rows with
  | nil => simp [upsertRows, dbFind, h]
  | cons row rest ih =>
    unfold upsertRows
    by_cases hk : row.key = k
    · rw [if_pos hk]
      simp [dbFind, h]
    · rw [if_neg hk]
      unfold dbFind
      rw [if_neg (by tauto)]
      exact ih

/-- After a `setex`, a live `get` on the same key returns the written value. -/
theorem redisLookup_redisSet (entries : List (String × Json × Nat)) (k : String) (v : Json)
    (e now : Nat) (h : now < e) :
    redisLookup (redisSet entries k v e) k now = some v := by
  induction entries with
  | nil => simp [redisSet, redisLookup, h]
  | cons kv rest ih =>
    obtain ⟨k0, v0, e0⟩ := kv
    unfold redisSet
    by_cases hk : k0 = k
    · rw [if_pos hk]
      simp [redisLookup, h]
    · rw [if_neg hk]
      unfold redisLookup
      rw [if_neg hk]
      exact ih

/-- An empty, fully functional store. -/
def dbClean : DbState := ⟨[], false, false, false, false⟩

/-- A volatile tier holding nothing whose `setex` commands reject. -/
def redisBrokenSet : RedisState := ⟨[], false, true⟩

/-- An unexpired durable row under the plain key "k". -/
def rowK : CacheRow := ⟨"k", "tags", Json.arr [Json.str "park"], 1000⟩

/-- A store holding just `rowK`. -/
def dbWithK : DbState := ⟨[rowK], false, false, false, false⟩

/-- A cached summary row for content "c" under the derived key. -/
def sumRow : CacheRow := ⟨generateCacheKey "c" "summary", "summary", Json.str "s", 100⟩

/-- A store holding just `sumRow`. -/
def dbWithSum : DbState := ⟨[sumRow], false, false, false, false⟩

/-- A cached sentiment row for content "x" under the derived key. -/
def sentRow : CacheRow := ⟨generateCacheKey "x" "sentiment", "sentiment", Json.num 1, 100⟩

/-- A store holding just `sentRow`. -/
def dbWithSent : DbState := ⟨[sentRow], false, false, false, false⟩

/-- A row whose expiry is exactly the observation instant. -/
def rowBoundary : CacheRow := ⟨"kb", "tags", Json.null, 100⟩

/-- A store holding just `rowBoundary`. -/
def dbBoundary : DbState := ⟨[rowBoundary], false, false, false, false⟩

/-- A strictly expired row. -/
def rowOld : CacheRow := ⟨"k2", "tags", Json.null, 5⟩

/-- A store holding one expired and one live row. -/
def dbMix : DbState := ⟨[rowOld, rowK], false, false, false, false⟩

/-- A store whose `ai_cache` table does not exist yet. -/
def dbMissing : DbState := ⟨[], true, false, false, false⟩

/-- An entry that has never been enriched. -/
def entry0 : EntryAI := ⟨none, none, none⟩

/-! ### Claim theorems -/

set_option maxRecDepth 10000 in
/-- Known-answer test for the hash core: SHA-256("abc"). -/
theorem sha256_abc_vector :
    digestHex (sha256 (utf8Str "abc")) =
      "ba7816bf8f01cfea414140de5dae2223b00361a396177a9cb410ff61f20015ad" := by decide

set_option maxRecDepth 10000 in
/-- The spec's concrete scenario: the key for content
"Had a great day at the park" and kind `tags` is the hex SHA-256 of
`"tags:Had a great day at the park"` (value checked against the digest the
reference SHA-256 produces for that string). -/
theorem cacheKey_park_vector :
    generateCacheKey "Had a great day at the park" "tags" =
      "6c3cabf891ee5f17a74453fb4bc72dff693170bc18609419347b1275efc359e8" := by decide

/-- C8: the derived cache key is the hex SHA-256 digest of `kind ++ ":" ++
content`; it is deterministic (equal (content, kind) pairs give identical
keys) and always 64 characters long. -/
theorem C8_cache_key_derivation (content kind c2 k2 : String)
    (hc : content = c2) (hk : kind = k2) :
    generateCacheKey content kind = digestHex (sha256 (utf8Str (kind ++ ":" ++ content))) ∧
    (generateCacheKey content kind).length = 64 ∧
    generateCacheKey content kind = generateCacheKey c2 k2 := by
  subst hc hk
  exact ⟨rfl, rfl, rfl⟩

set_option maxRecDepth 10000 in
/-- Witness for C8 at the spec's concrete scenario. -/
theorem C8_witness :
    generateCacheKey "Had a great day at the park" "tags" =
      digestHex (sha256 (utf8Str ("tags" ++ ":" ++ "Had a great day at the park"))) ∧
    (generateCacheKey "Had a great day at the park" "tags").length = 64 ∧
    generateCacheKey "Had a great day at the park" "tags" =
      generateCacheKey "Had a great day at the park" "tags" :=
  C8_cache_key_derivation "Had a great day at the park" "tags"
    "Had a great day at the park" "tags" rfl rfl

/-- C4: with the provider configured (`openai` non-null), `analyzeSentiment`
and `generateTags` never succeed: whatever the provider round-trip and the
parse outcome, both return `AppError` with status 500 ("Failed to analyze
sentiment" / "Failed to generate tags"), because the path that survives the
provider call evaluates the undeclared `cacheKey` variable. -/
theorem C4_configured_always_error (env : ProviderCall) (parse : String → Option Json)
    (content : String) :
    analyzeSentiment (some ()) env parse content = .error ("Failed to analyze sentiment", 500) ∧
    generateTags (some ()) env parse content = .error ("Failed to generate tags", 500) := by
  constructor
  · cases env with
    | fail => rfl
    | respond c =>
      cases hp : parse (jsOr c "{}") with
      | none => simp [analyzeSentiment, hp]
      | some r => simp [analyzeSentiment, hp]
  · cases env with
    | fail => rfl
    | respond c =>
      cases hp : parse (jsOr c "[]") with
      | none => simp [generateTags, hp]
      | some r => simp [generateTags, hp]

/-- C2 counterexample: with the provider unconfigured and a cold cache,
`generateSummary` does not return the empty string — it raises
`AppError('Failed to generate summary', 500)` (the function has no
`!this.openai` guard, so `this.openai.chat...` throws on `null`). -/
theorem C2_counterexample :
    (generateSummary none ProviderCall.fail none dbClean 0 3600 "x").1 =
      .error ("Failed to generate summary", 500) ∧
    (generateSummary none ProviderCall.fail none dbClean 0 3600 "x").1 ≠ .ok (.str "") := by
  refine ⟨rfl, ?_⟩
  intro h
  rw [show (generateSummary none ProviderCall.fail none dbClean 0 3600 "x").1 =
    Except.error ("Failed to generate summary", 500) from rfl] at h
  exact Except.noConfusion h

/-- C2 (amended): with the provider unconfigured, `analyzeSentiment` returns
the neutral default `{score:0, label:"neutral", confidence:0, emotions:[]}`
and `generateTags` returns `[]`, both without raising; `generateSummary`,
which lacks the unconfigured-provider guard, raises
`AppError('Failed to generate summary', 500)` on every cache miss instead of
returning the empty string. -/
theorem C2_unconfigured_defaults (env : ProviderCall) (parse : String → Option Json)
    (content : String) (redis : Option RedisState) (db : DbState) (now ttl : Nat)
    (hmiss : (getCachedResult redis db now (generateCacheKey content "summary") "summary").1 =
      none) :
    analyzeSentiment none env parse content = .ok sentimentDefault ∧
    generateTags none env parse content = .ok (.arr []) ∧
    (generateSummary none env redis db now ttl content).1 =
      .error ("Failed to generate summary", 500) := by
  refine ⟨rfl, rfl, ?_⟩
  cases hg : getCachedResult redis db now (generateCacheKey content "summary") "summary" with
  | mk cached redis2 =>
    have hc : cached = none := by rw [hg] at hmiss; exact hmiss
    subst hc
    simp only [generateSummary]
    rw [hg]
    rfl

/-- Witness for C2 at a concrete cold-cache state. -/
theorem C2_witness :
    analyzeSentiment none ProviderCall.fail (fun _ => none) "x" = .ok sentimentDefault ∧
    generateTags none ProviderCall.fail (fun _ => none) "x" = .ok (.arr []) ∧
    (generateSummary none ProviderCall.fail none dbClean 0 3600 "x").1 =
      .error ("Failed to generate summary", 500) :=
  C2_unconfigured_defaults ProviderCall.fail (fun _ => none) "x" none dbClean 0 3600 rfl

set_option maxRecDepth 10000 in
/-- C3 counterexample: the cache holds a sentiment result for content "x"
under the derived key, yet `analyzeSentiment` does not return it — with no
provider it returns the neutral default, and with a provider it raises — so
the sentiment call neither consults the cache nor returns the cached result
on a hit. -/
theorem C3_counterexample :
    (getCachedResult none dbWithSent 0 (generateCacheKey "x" "sentiment") "sentiment").1 =
      some (Json.num 1) ∧
    analyzeSentiment none ProviderCall.fail (fun _ => none) "x" = .ok sentimentDefault ∧
    sentimentDefault ≠ Json.num 1 ∧
    analyzeSentiment (some ()) ProviderCall.fail (fun _ => none) "x" =
      .error ("Failed to analyze sentiment", 500) := by
  refine ⟨?_, rfl, ?_, rfl⟩
  · simp [getCachedResult, redisGet, dbWithSent, dbFind, sentRow]
  · intro h
    exact Json.noConfusion h

/-- C3 (amended): only `generateSummary` consults the two-tier cache before
the provider: on a (truthy) cache hit under the key derived from
(content, "summary") it returns the cached result without any provider call
(the outcome is the same for every provider state and round-trip);
`analyzeSentiment` and `generateTags` never read the cache (see
`C3_counterexample`). -/
theorem C3_summary_cache_first (openai : Option Unit) (env : ProviderCall)
    (redis redis2 : Option RedisState) (db : DbState) (now ttl : Nat) (content : String)
    (v : Json)
    (hhit : getCachedResult redis db now (generateCacheKey content "summary") "summary" =
      (some v, redis2))
    (htruthy : jsTruthy v = true) :
    generateSummary openai env redis db now ttl content = (.ok v, redis2, db) := by
  simp only [generateSummary]
  rw [hhit]
  simp [htruthy]

set_option maxRecDepth 10000 in
/-- Witness for C3: a concrete summary cache hit is returned as-is. -/
theorem C3_witness :
    generateSummary none ProviderCall.fail none dbWithSum 0 3600 "c" =
      (.ok (Json.str "s"), none, dbWithSum) :=
  C3_summary_cache_first none ProviderCall.fail none none dbWithSum 0 3600 "c" (Json.str "s")
    (by simp [getCachedResult, redisGet, dbWithSum, dbFind, sumRow]) rfl

/-- C1 counterexample: with the provider unconfigured and a cold cache,
sentiment analysis and tag generation both succeed (with their defaults)
while summary generation fails, yet the orchestrator persists nothing: the
succeeded sentiment field is left unset rather than written. -/
theorem C1_counterexample :
    analyzeSentiment none ProviderCall.fail (fun _ => none) "x" = .ok sentimentDefault ∧
    generateTags none ProviderCall.fail (fun _ => none) "x" = .ok (.arr []) ∧
    (generateSummary none ProviderCall.fail none dbClean 0 3600 "x").1 =
      .error ("Failed to generate summary", 500) ∧
    (processAIAnalysis none ProviderCall.fail ProviderCall.fail ProviderCall.fail
      (fun _ => none) none dbClean 0 3600 entry0 "x").1.aiSentiment = none :=
  ⟨rfl, rfl, rfl, rfl⟩

/-- C1 (amended): the orchestrator is all-or-nothing, not per-field.  When all
three analysis calls succeed, one update writes all three fields; when any of
them fails, `Promise.all` rejects, the `catch` only logs, and every field —
including those whose analysis succeeded — is left at its previous value. -/
theorem C1_all_or_nothing (openai : Option Unit) (sEnv tEnv uEnv : ProviderCall)
    (parse : String → Option Json) (redis : Option RedisState) (db : DbState)
    (now ttl : Nat) (entry : EntryAI) (content : String) :
    (∀ sv tv uv,
      analyzeSentiment openai sEnv parse content = .ok sv →
      generateTags openai tEnv parse content = .ok tv →
      (generateSummary openai uEnv redis db now ttl content).1 = .ok uv →
      (processAIAnalysis openai sEnv tEnv uEnv parse redis db now ttl entry content).1 =
        ⟨some sv, some tv, some uv⟩) ∧
    (∀ e,
      (analyzeSentiment openai sEnv parse content = .error e ∨
       generateTags openai tEnv parse content = .error e ∨
       (generateSummary openai uEnv redis db now ttl content).1 = .error e) →
      (processAIAnalysis openai sEnv tEnv uEnv parse redis db now ttl entry content).1 =
        entry) := by
  cases hg : generateSummary openai uEnv redis db now ttl content with
  | mk u rest =>
    obtain ⟨redis2, db2⟩ := rest
    constructor
    · intro sv tv uv hs ht hu
      have hu2 : u = .ok uv := hu
      simp only [processAIAnalysis]
      rw [hg, hs, ht, hu2]
    · intro e he
      simp only [processAIAnalysis]
      rw [hg]
      rcases he with hs | ht | hu
      · rw [hs]
      · rw [ht]
        cases analyzeSentiment openai sEnv parse content <;> rfl
      · have hu2 : u = .error e := hu
        rw [hu2]
        cases analyzeSentiment openai sEnv parse content <;>
          cases generateTags openai tEnv parse content <;> rfl

set_option maxRecDepth 10000 in
/-- Witness for C1: an all-succeed pass (summary served from cache) persists
all three fields, and a pass with a failing summary persists nothing. -/
theorem C1_witness :
    (processAIAnalysis none ProviderCall.fail ProviderCall.fail ProviderCall.fail
      (fun _ => none) none dbWithSum 0 3600 entry0 "c").1 =
      ⟨some sentimentDefault, some (Json.arr []), some (Json.str "s")⟩ ∧
    (processAIAnalysis none ProviderCall.fail ProviderCall.fail ProviderCall.fail
      (fun _ => none) none dbClean 0 3600 entry0 "x").1 = entry0 := by
  constructor
  · exact (C1_all_or_nothing none ProviderCall.fail ProviderCall.fail ProviderCall.fail
      (fun _ => none) none dbWithSum 0 3600 entry0 "c").1 sentimentDefault (Json.arr [])
      (Json.str "s") rfl rfl rfl
  · exact (C1_all_or_nothing none ProviderCall.fail ProviderCall.fail ProviderCall.fail
      (fun _ => none) none dbClean 0 3600 entry0 "x").2 ("Failed to generate summary", 500)
      (Or.inr (Or.inr rfl))

/-- C5 counterexample: the volatile tier misses cleanly (no read failure) and
the durable tier holds an unexpired row, but the repopulating `setex`
rejects — and `get` returns absent instead of the durable result, because the
function's single `catch` swallows the repopulation failure together with the
value. -/
theorem C5_counterexample :
    dbFind dbWithK.rows 0 "k" "tags" = some rowK ∧
    redisGet (some redisBrokenSet) "k" 0 = some (.val none) ∧
    (getCachedResult (some redisBrokenSet) dbWithK 0 "k" "tags").1 = none := by
  refine ⟨?_, rfl, rfl⟩
  simp [dbWithK, dbFind, rowK]

/-- C5 (amended): on a clean volatile miss (or with the volatile tier absent,
which is treated as a miss) and a durable hit, `get` returns the durable
result and repopulates the volatile tier with the fixed 3600 s TTL — provided
the tier is absent or the repopulating write succeeds.  When the repopulating
write fails, the failure is swallowed (never raised to the caller) but `get`
returns absent rather than the durable result. -/
theorem C5_durable_hit (redis : Option RedisState) (db : DbState) (now : Nat)
    (key type : String) (row : CacheRow)
    (hmiss : redisGet redis key now = none ∨ redisGet redis key now = some (.val none))
    (hread : db.readFails = false)
    (hfind : dbFind db.rows now key type = some row) :
    (redis = none → getCachedResult redis db now key type = (some row.result, none)) ∧
    (∀ r, redis = some r → r.setFails = false →
      getCachedResult redis db now key type =
        (some row.result,
         some { r with entries := redisSet r.entries key row.result (now + 3600 * 1000) })) ∧
    (∀ r, redis = some r → r.setFails = true →
      getCachedResult redis db now key type = (none, some r)) := by
  refine ⟨?_, ?_, ?_⟩
  · intro hr
    subst hr
    simp [getCachedResult, redisGet, hread, hfind]
  · intro r hr hset
    subst hr
    rcases hmiss with hm | hm
    · exact absurd hm (by simp [redisGet])
    · simp only [getCachedResult]
      rw [hm]
      simp [hread, hfind, hset]
  · intro r hr hset
    subst hr
    rcases hmiss with hm | hm
    · exact absurd hm (by simp [redisGet])
    · simp only [getCachedResult]
      rw [hm]
      simp [hread, hfind, hset]

/-- Witness for C5: a durable hit with the volatile tier absent. -/
theorem C5_witness :
    getCachedResult none dbWithK 0 "k" "tags" = (some (Json.arr [Json.str "park"]), none) :=
  (C5_durable_hit none dbWithK 0 "k" "tags" rowK (Or.inl rfl) rfl
    (by simp [dbWithK, dbFind, rowK])).1 rfl

/-- C6 counterexample: when the volatile-tier write rejects, `put` returns
without raising but also without upserting the durable tier — the store still
has no row for the key, contrary to "the durable tier is still upserted". -/
theorem C6_counterexample :
    redisBrokenSet.setFails = true ∧
    cacheResult (some redisBrokenSet) dbClean 0 3600 "k" "tags" (Json.arr []) =
      (some redisBrokenSet, dbClean) ∧
    (cacheResult (some redisBrokenSet) dbClean 0 3600 "k" "tags" (Json.arr [])).2.rows = [] :=
  ⟨rfl, rfl, rfl⟩

/-- C6 (amended): `put` never raises; a volatile-write failure is swallowed
(the caller proceeds) but also skips the durable upsert, because both writes
share one `try` block.  When the volatile tier is absent or its write
succeeds, the durable tier is upserted with `expiresAt = now + ttl * 1000`
(and a durable-write failure is likewise only logged).  A caching failure
never aborts the calling analysis operation: the fresh result is still
returned — e.g. `generateSummary`'s `try` block returns the fresh summary for
every cache state, including one whose writes all fail. -/
theorem C6_put_isolation (redis : Option RedisState) (db : DbState) (now ttl : Nat)
    (key type : String) (v : Json) :
    (∀ r, redis = some r → r.setFails = true →
      cacheResult redis db now ttl key type v = (some r, db)) ∧
    (redis = none → db.writeFails = false →
      cacheResult redis db now ttl key type v =
        (none, { db with rows := upsertRows db.rows key type v (now + ttl * 1000) })) ∧
    (∀ r, redis = some r → r.setFails = false → db.writeFails = false →
      cacheResult redis db now ttl key type v =
        (some { r with entries := redisSet r.entries key v (now + ttl * 1000) },
         { db with rows := upsertRows db.rows key type v (now + ttl * 1000) })) ∧
    (∀ c ck, (summaryFresh (some ()) (.respond c) redis db now ttl ck).1 =
      .ok (.str (jsOr c ""))) := by
  refine ⟨?_, ?_, ?_, ?_⟩
  · intro r hr hset
    subst hr
    simp [cacheResult, hset]
  · intro hr hw
    subst hr
    simp [cacheResult, hw]
  · intro r hr hset hw
    subst hr
    simp [cacheResult, hset, hw]
  · intro c ck
    cases redis with
    | none => simp [summaryFresh, cacheResult, jsTruthy]
    | some r =>
      by_cases hset : r.setFails = true
      · simp [summaryFresh, cacheResult, hset]
      · simp only [Bool.not_eq_true] at hset
        by_cases hw : db.writeFails = true
        · simp [summaryFresh, cacheResult, hset, hw]
        · simp only [Bool.not_eq_true] at hw
          simp [summaryFresh, cacheResult, hset, hw]

/-- Witness for C6 with the volatile tier absent. -/
theorem C6_witness :
    cacheResult none dbClean 0 3600 "k" "tags" (Json.num 5) =
      (none, ⟨[⟨"k", "tags", Json.num 5, 3600000⟩], false, false, false, false⟩) :=
  (C6_put_isolation none dbClean 0 3600 "k" "tags" (Json.num 5)).2.1 rfl rfl

/-- C7 counterexample: a durable row whose `expiresAt` equals the sweep
instant satisfies `expiresAt <= now`, yet `sweep` does not delete it — the
source deletes with the strict filter `expiresAt < now`. -/
theorem C7_counterexample :
    rowBoundary.expiresAt ≤ 100 ∧
    (cleanupExpiredCache dbBoundary 100).rows = [rowBoundary] :=
  ⟨by decide, rfl⟩

/-- C7 (amended): a durable row with `expiresAt ≤ now` (in particular any row
expired in the past) is never returned by `get` — when the volatile tier
misses or is absent, `get` reports absent; and `sweep` deletes exactly the
rows with `expiresAt < now` (strictly in the past): every such row is removed
and every other row is retained. -/
theorem C7_expiry (redis : Option RedisState) (db : DbState) (now : Nat) (key type : String) :
    ((redisGet redis key now = none ∨ redisGet redis key now = some (.val none)) →
     (∀ row ∈ db.rows, row.key = key → row.type = type → row.expiresAt ≤ now) →
     (getCachedResult redis db now key type).1 = none) ∧
    (db.tableMissing = false → db.deleteFails = false →
      (∀ row ∈ (cleanupExpiredCache db now).rows, now ≤ row.expiresAt) ∧
      (∀ row ∈ db.rows, now ≤ row.expiresAt → row ∈ (cleanupExpiredCache db now).rows)) := by
  constructor
  · intro hmiss hexp
    have hfind := dbFind_none_of_expired db.rows now key type hexp
    rcases hmiss with hm | hm
    · have hr : redis = none := by
        cases redis with
        | none => rfl
        | some r => exact absurd hm (by simp [redisGet])
      subst hr
      cases hread : db.readFails with
      | true => simp [getCachedResult, redisGet, hread]
      | false => simp [getCachedResult, redisGet, hread, hfind]
    · simp only [getCachedResult]
      rw [hm]
      cases hread : db.readFails with
      | true => simp [hread]
      | false => simp [hread, hfind]
  · intro hmiss hdel
    constructor
    · intro row hrow
      simp only [cleanupExpiredCache, cleanupBody, hmiss, hdel, Bool.false_eq_true,
        if_false] at hrow
      rw [List.mem_filter] at hrow
      have h2 : ¬ row.expiresAt < now := by simpa using hrow.2
      omega
    · intro row hrow hlive
      simp only [cleanupExpiredCache, cleanupBody, hmiss, hdel, Bool.false_eq_true, if_false]
      simp only [List.mem_filter]
      exact ⟨hrow, by simp; omega⟩

/-- Witness for C7: an expired row is invisible to `get` and removed by the
sweep, while the live row survives. -/
theorem C7_witness :
    (getCachedResult none dbMix 10 "k2" "tags").1 = none ∧
    (∀ row ∈ (cleanupExpiredCache dbMix 10).rows, 10 ≤ row.expiresAt) ∧
    rowK ∈ (cleanupExpiredCache dbMix 10).rows := by
  have h := C7_expiry none dbMix 10 "k2" "tags"
  refine ⟨h.1 (Or.inl rfl) ?_, (h.2 rfl rfl).1, (h.2 rfl rfl).2 rowK ?_ ?_⟩
  · decide
  · simp [dbMix]
  · decide

/-- C9: put/get round-trip — after `put(key, kind, result, ttl)` with a
positive ttl and a functional durable tier, an immediate `get(key, kind)`
returns the written result, both when the volatile tier is entirely
unavailable (`this.redis === null`, so the durable upsert alone satisfies the
durable lookup) and when it is present and functional. -/
theorem C9_roundtrip (redis : Option RedisState) (db : DbState) (now ttl : Nat)
    (key type : String) (v : Json)
    (httl : 0 < ttl) (hread : db.readFails = false) (hwrite : db.writeFails = false)
    (hredis : redis = none ∨ ∃ r, redis = some r ∧ r.getFails = false ∧ r.setFails = false) :
    (getCachedResult (cacheResult redis db now ttl key type v).1
      (cacheResult redis db now ttl key type v).2 now key type).1 = some v := by
  have hlt : now < now + ttl * 1000 := by omega
  rcases hredis with hr | ⟨r, hr, hget, hset⟩
  · subst hr
    simp only [cacheResult, hwrite, Bool.false_eq_true, if_false]
    simp [getCachedResult, redisGet, hread, dbFind_upsertRows db.rows now key type v _ hlt]
  · subst hr
    simp only [cacheResult, hset, Bool.false_eq_true, if_false, hwrite]
    simp [getCachedResult, redisGet, hget, redisLookup_redisSet r.entries key v _ now hlt]

/-- Witness for C9: the spec's scenario — `put` then `get` of the tag list
`["park","happy"]` with the volatile tier absent. -/
theorem C9_witness :
    (getCachedResult
      (cacheResult none dbClean 0 3600 "k" "tags" (Json.arr [Json.str "park", Json.str "happy"])).1
      (cacheResult none dbClean 0 3600 "k" "tags" (Json.arr [Json.str "park", Json.str "happy"])).2
      0 "k" "tags").1 = some (Json.arr [Json.str "park", Json.str "happy"]) :=
  C9_roundtrip none dbClean 0 3600 "k" "tags" (Json.arr [Json.str "park", Json.str "happy"])
    (by decide) rfl rfl (Or.inl rfl)

/-- C10: the sweep never raises — every error of its body is caught and
leaves the store unchanged; with the `ai_cache` table absent it is a no-op;
and on a store with zero expired rows it deletes nothing. -/
theorem C10_sweep_total (db : DbState) (now : Nat) :
    (db.tableMissing = true → cleanupExpiredCache db now = db) ∧
    ((∀ row ∈ db.rows, ¬ row.expiresAt < now) → cleanupExpiredCache db now = db) ∧
    (∀ e, cleanupBody db now = .error e → cleanupExpiredCache db now = db) := by
  refine ⟨?_, ?_, ?_⟩
  · intro hm
    simp [cleanupExpiredCache, cleanupBody, hm]
  · intro hlive
    obtain ⟨rows, tm, rf, wf, df⟩ := db
    cases tm with
    | true => simp [cleanupExpiredCache, cleanupBody]
    | false =>
      cases df with
      | true => simp [cleanupExpiredCache, cleanupBody]
      | false =>
        have hfilter : rows.filter (fun row => !decide (row.expiresAt < now)) = rows := by
          apply List.filter_eq_self.mpr
          intro row hrow
          simpa using hlive row hrow
        simp [cleanupExpiredCache, cleanupBody, hfilter]
  · intro e he
    simp [cleanupExpiredCache, he]

/-- Witness for C10: a missing table is a no-op, and a store with no expired
rows is untouched. -/
theorem C10_witness :
    cleanupExpiredCache dbMissing 5 = dbMissing ∧
    cleanupExpiredCache dbWithK 7 = dbWithK :=
  ⟨(C10_sweep_total dbMissing 5).1 rfl,
   (C10_sweep_total dbWithK 7).2.1 (by decide)⟩
